import Mathlib

/-!
Verification of the client-side state-synchronization layer of the
astro-marshal portal: the groups / newsFeed / recentSources / source
reducers, the source websocket message-handler subscriber, the hydrate
thunk, and (modelled from the spec, since their code is not in the
repository snapshot) the HTTP client wrapper and the store's reducer
registration.

JavaScript objects and arrays are heap-allocated and compared by
reference, so the embedding carries an explicit heap: `JVal` is a
primitive value or a reference (address) into a `Heap` of `JObj`s.
Reducers are translated statement-by-statement from the source files;
object-literal spread (`{...state, k: v}`) is modelled by copying the
spread object's field list and then updating/appending keys in order,
which is the ECMAScript semantics (an update keeps the key's original
position).  Allocation only ever appends to the heap, so "the reducer
did not mutate its input" is the statement that the output heap extends
the input heap.
-/

/-- A JavaScript value: a primitive, or a reference into the heap. -/
inductive JVal where
  | null
  | undefined
  | bool (b : Bool)
  | num (n : Int)
  | str (s : String)
  | ref (a : Nat)
deriving Repr, DecidableEq

/-- A heap object: a plain object (ordered field list) or an array. -/
inductive JObj where
  | obj (fields : List (String × JVal))
  | arr (elems : List JVal)
deriving Repr, DecidableEq

/-- The JS heap: address `a` is the `a`-th allocated object. -/
structure Heap where
  mem : List JObj
deriving Repr, DecidableEq

def Heap.get (h : Heap) (a : Nat) : Option JObj :=
  h.mem.get? a

def Heap.alloc (h : Heap) (o : JObj) : Heap × Nat :=
  (⟨h.mem ++ [o]⟩, h.mem.length)

/-- First-occurrence lookup in an ordered field list (JS object keys are
unique, so first = only). -/
def lookupField (fields : List (String × JVal)) (k : String) : Option JVal :=
  match fields with
  | [] => none
  | (k', v) :: rest => if k' = k then some v else lookupField rest k

/-- JS property write on an object literal under construction: an existing
key keeps its position and gets the new value, a fresh key is appended. -/
def setField (fields : List (String × JVal)) (k : String) (v : JVal) :
    List (String × JVal) :=
  match fields with
  | [] => [(k, v)]
  | (k', v') :: rest => if k' = k then (k, v) :: rest else (k', v') :: setField rest k v

/-- Spread `extra`'s fields over `base`, in order (later keys win). -/
def spreadFields (base : List (String × JVal)) (extra : List (String × JVal)) :
    List (String × JVal) :=
  extra.foldl (fun acc kv => setField acc kv.1 kv.2) base

/-- The own enumerable fields contributed by spreading value `v` into an
object literal: an object spreads its fields, an array or string spreads
index keys, primitives spread nothing. -/
def objFieldsOf (h : Heap) (v : JVal) : List (String × JVal) :=
  match v with
  | .ref a =>
    match h.get a with
    | some (.obj fs) => fs
    | some (.arr es) => es.enum.map (fun ie => (toString ie.1, ie.2))
    | none => []
  | .str s => (s.toList.enum.map (fun ic => (toString ic.1, JVal.str (String.mk [ic.2]))))
  | _ => []

/-- JS property read `v.k`: returns `undefined` when absent. -/
def getField (h : Heap) (v : JVal) (k : String) : JVal :=
  match v with
  | .ref a =>
    match h.get a with
    | some (.obj fs) =>
      match lookupField fs k with
      | some w => w
      | none => .undefined
    | _ => .undefined
  | _ => .undefined

/-- JS strict equality `===` on our value domain: primitive values compare
by value, references by address, no cross-type equality. -/
def jsStrictEq : JVal → JVal → Bool
  | .null, .null => true
  | .undefined, .undefined => true
  | .bool b, .bool c => b = c
  | .num n, .num m => n = m
  | .str s, .str t => s = t
  | .ref a, .ref b => a = b
  | _, _ => false

/-- JS truthiness. -/
def jsTruthy : JVal → Bool
  | .null => false
  | .undefined => false
  | .bool b => b
  | .num n => n ≠ 0
  | .str s => s ≠ ""
  | .ref _ => true

/-- A dispatched action as reducers see it: they only ever read
`action.type` and `action.data`. -/
structure JAction where
  type : String
  data : JVal := .undefined
deriving Repr, DecidableEq

/-- A reference-free deep value, for stating deep ("structural") equality
of heap-allocated states. -/
inductive DVal where
  | null
  | undefined
  | bool (b : Bool)
  | num (n : Int)
  | str (s : String)
  | obj (fields : List (String × DVal))
  | arr (elems : List DVal)

/-- Fuel-bounded deep read of a value: chases references through the heap,
`none` when the fuel runs out or a reference dangles. -/
def deep (h : Heap) : Nat → JVal → Option DVal
  | _, .null => some .null
  | _, .undefined => some .undefined
  | _, .bool b => some (.bool b)
  | _, .num n => some (.num n)
  | _, .str s => some (.str s)
  | 0, .ref _ => none
  | f + 1, .ref a =>
    match h.get a with
    | some (.obj fs) =>
      (fs.mapM (fun kv => (deep h f kv.2).map (fun d => (kv.1, d)))).map DVal.obj
    | some (.arr es) => (es.mapM (deep h f)).map DVal.arr
    | none => none

/-! ## Action-type constants (from the ducks) -/

def FETCH_GROUPS : String := "skyportal/FETCH_GROUPS"
def FETCH_GROUPS_OK : String := "skyportal/FETCH_GROUPS_OK"
def ADD_GROUP_OK : String := "skyportal/ADD_GROUP_OK"
def FETCH_NEWSFEED_OK : String := "skyportal/FETCH_NEWSFEED_OK"
def FETCH_RECENT_SOURCES : String := "skyportal/FETCH_RECENT_SOURCES"
def FETCH_RECENT_SOURCES_OK : String := "skyportal/FETCH_RECENT_SOURCES_OK"
def REFRESH_SOURCE : String := "skyportal/REFRESH_SOURCE"
def FETCH_LOADED_SOURCE_OK : String := "skyportal/FETCH_LOADED_SOURCE_OK"
def FETCH_LOADED_SOURCE_FAIL : String := "skyportal/FETCH_LOADED_SOURCE_FAIL"

/-! ## The four reducers of the state-synchronization layer

Each is the statement-by-statement translation of the corresponding
`function reducer(state, action)` from the ducks.  A reducer takes the
heap, the current slice state (a `JVal`, normally a reference), and the
action, and returns the possibly-extended heap together with the new
slice state. -/

/-- The groups reducer (ducks/groups):
`case FETCH_GROUPS_OK: { const { user_groups, user_accessible_groups,
all_groups } = action.data; return {...state, user: user_groups,
userAccessible: user_accessible_groups, all: all_groups}; }
default: return state;` -/
def groupsReducer (h : Heap) (state : JVal) (action : JAction) : Heap × JVal :=
  if action.type = FETCH_GROUPS_OK then
    let user_groups := getField h action.data "user_groups"
    let user_accessible_groups := getField h action.data "user_accessible_groups"
    let all_groups := getField h action.data "all_groups"
    let fs0 := objFieldsOf h state
    let fs1 := setField fs0 "user" user_groups
    let fs2 := setField fs1 "userAccessible" user_accessible_groups
    let fs3 := setField fs2 "all" all_groups
    let ha := h.alloc (.obj fs3)
    (ha.1, .ref ha.2)
  else
    (h, state)

/-- The newsFeed reducer (ducks/newsFeed):
`case FETCH_NEWSFEED_OK: { const newsFeedItems = action.data.news_feed_items;
return {...state, newsFeedItems}; } default: return state;` -/
def newsFeedReducer (h : Heap) (state : JVal) (action : JAction) : Heap × JVal :=
  if action.type = FETCH_NEWSFEED_OK then
    let newsFeedItems := getField h action.data "news_feed_items"
    let fs := setField (objFieldsOf h state) "newsFeedItems" newsFeedItems
    let ha := h.alloc (.obj fs)
    (ha.1, .ref ha.2)
  else
    (h, state)

/-- The recentSources reducer (ducks/recentSources):
`case FETCH_RECENT_SOURCES_OK: { const recentSources = action.data;
return { recentSources }; } default: return state;` -/
def recentSourcesReducer (h : Heap) (state : JVal) (action : JAction) : Heap × JVal :=
  if action.type = FETCH_RECENT_SOURCES_OK then
    let recentSources := action.data
    let ha := h.alloc (.obj [("recentSources", recentSources)])
    (ha.1, .ref ha.2)
  else
    (h, state)

/-- The source reducer (ducks/source):
`case FETCH_LOADED_SOURCE_OK: { const source = action.data.sources;
return {...state, ...source, loadError: false}; }
case FETCH_LOADED_SOURCE_FAIL: return {...state, loadError: true};
default: return state;` -/
def sourceReducer (h : Heap) (state : JVal) (action : JAction) : Heap × JVal :=
  if action.type = FETCH_LOADED_SOURCE_OK then
    let source := getField h action.data "sources"
    let fs0 := spreadFields (objFieldsOf h state) (objFieldsOf h source)
    let fs1 := setField fs0 "loadError" (.bool false)
    let ha := h.alloc (.obj fs1)
    (ha.1, .ref ha.2)
  else if action.type = FETCH_LOADED_SOURCE_FAIL then
    let fs := setField (objFieldsOf h state) "loadError" (.bool true)
    let ha := h.alloc (.obj fs)
    (ha.1, .ref ha.2)
  else
    (h, state)

/-! ## The source websocket message-handler subscriber (ducks/source)

`messageHandler.add((actionType, payload, dispatch, getState) => {
  const { source } = getState();
  if (actionType === REFRESH_SOURCE) {
    const loaded_source_id = source ? source.id : null;
    if (loaded_source_id === payload.source_id) {
      dispatch(fetchSource(loaded_source_id));
    }
  }
});`

`dispatch` is modelled by collecting the dispatched action creators; the
subscriber is the function from (store state, actionType, payload) to
the list of dispatch calls it makes. -/

/-- An action-creator call dispatched by the source subscriber. -/
inductive Dispatched where
  | fetchSource (id : JVal)
deriving Repr, DecidableEq

def sourceMessageHandler (h : Heap) (storeState : JVal) (actionType : String)
    (payload : JVal) : List Dispatched :=
  let source := getField h storeState "source"
  if actionType = REFRESH_SOURCE then
    let loaded_source_id := if jsTruthy source then getField h source "id" else .null
    if jsStrictEq loaded_source_id (getField h payload "source_id") then
      [.fetchSource loaded_source_id]
    else
      []
  else
    []

/-! ## The hydrate thunk

`export default function hydrate() { return (dispatch) => {
dispatch(configActions.fetchConfig()); ... (12 dispatches) ... }; }`

The thunk body is a plain sequence of `dispatch` calls on twelve fetch
action creators, none awaited; it is modelled as a function of an
arbitrary `dispatch : HydrateFetch → σ → σ`, threading only the
observer's own accumulator. -/

/-- The twelve per-resource fetch action creators hydrate dispatches. -/
inductive HydrateFetch where
  | config
  | systemInfo
  | dbInfo
  | profile
  | groups
  | newsFeed
  | topSources
  | instruments
  | instrumentObsParams
  | observingRuns
  | telescopes
  | taxonomies
deriving Repr, DecidableEq

def hydrateThunk {σ : Type} (dispatch : HydrateFetch → σ → σ) (s0 : σ) : σ :=
  let s1 := dispatch .config s0
  let s2 := dispatch .systemInfo s1
  let s3 := dispatch .dbInfo s2
  let s4 := dispatch .profile s3
  let s5 := dispatch .groups s4
  let s6 := dispatch .newsFeed s5
  let s7 := dispatch .topSources s6
  let s8 := dispatch .instruments s7
  let s9 := dispatch .instrumentObsParams s8
  let s10 := dispatch .observingRuns s9
  let s11 := dispatch .telescopes s10
  dispatch .taxonomies s11

/-- The dispatch sequence of the hydrate thunk, in source order. -/
def hydrateFetches : List HydrateFetch :=
  [.config, .systemInfo, .dbInfo, .profile, .groups, .newsFeed, .topSources,
   .instruments, .instrumentObsParams, .observingRuns, .telescopes, .taxonomies]

/-! ## HTTP client wrapper (modelled from the spec) -/

/-- Modelled from the spec: the outcome of one network request as seen by
the HTTP client wrapper (`API.js` / baselayer's API util, whose code is
not in the repository snapshot — only its callers are).  A request either
succeeds with a parsed payload, or fails in one of the spec's three ways:
network/transport error, non-success status from the server, or a
response that could not be parsed. -/
inductive RequestOutcome where
  | ok (data : JVal)
  | networkError (msg : String)
  | httpStatus (code : Nat) (body : String)
  | malformed (raw : String)
deriving Repr, DecidableEq

def RequestOutcome.isFail : RequestOutcome → Bool
  | .ok _ => false
  | _ => true

/-- The value the wrapper's promise resolves with. -/
structure APIResult where
  status : String
  message : String := ""
  data : JVal := .undefined
deriving Repr, DecidableEq

/-- An action dispatched by the wrapper: the typed success action, or the
generic failure-notification action shown to the user. -/
inductive APIDispatch where
  | action (type : String) (data : JVal)
  | failNotification (message : String)
deriving Repr, DecidableEq

inductive HTTPVerb where
  | get
  | post
  | put
  | patch
  | delete
deriving Repr, DecidableEq

/-- Modelled from the spec: the human-readable message the wrapper derives
for each failure class ("carrying a human-readable message"). -/
def apiFailureMessage : RequestOutcome → String
  | .networkError m => if m = "" then "Network request failed" else m
  | .httpStatus _code body => if body = "" then "Request failed" else body
  | .malformed _ => "Could not parse server response"
  | .ok _ => ""

/-- Modelled from the spec: one HTTP client wrapper call
(GET/POST/PUT/PATCH/DELETE, `API.js` not in the repository snapshot).
On success it dispatches the given success-type action carrying the
payload under `data` and resolves with `{status: "success", data}`; on
any failure it dispatches the generic failure notification and resolves
(never rejects — the function is total) with `{status: "error", message}`.
The result is the resolved value paired with the dispatched actions. -/
def apiCall (_verb : HTTPVerb) (_path : String) (successType : String)
    (outcome : RequestOutcome) : APIResult × List APIDispatch :=
  match outcome with
  | .ok data =>
    ({ status := "success", data := data }, [.action successType data])
  | o =>
    ({ status := "error", message := apiFailureMessage o },
     [.failNotification (apiFailureMessage o)])

/-! ## Store reducer registration (modelled from the spec) -/

/-- A registered reducer function, in the shape of the embedded reducers. -/
def ReducerFn : Type := Heap → JVal → JAction → Heap × JVal

/-- Modelled from the spec: the store's registration table, mapping slice
name to reducer, and `injectReducer` (baselayer's store, whose code is not
in the repository snapshot — only its call sites are): registering under an
existing key replaces that entry in place (last registration wins, never
throws); a fresh key is appended. -/
def injectReducer (table : List (String × ReducerFn)) (key : String)
    (r : ReducerFn) : List (String × ReducerFn) :=
  match table with
  | [] => [(key, r)]
  | (k, r0) :: rest =>
    if k = key then (key, r) :: rest else (k, r0) :: injectReducer rest key r

/-- Look a reducer up in the registration table. -/
def lookupReducer (table : List (String × ReducerFn)) (key : String) :
    Option ReducerFn :=
  match table with
  | [] => none
  | (k, r) :: rest => if k = key then some r else lookupReducer rest key

/-! ## Helper lemmas -/

theorem Heap.get_alloc_self (h : Heap) (o : JObj) :
    (h.alloc o).1.get (h.alloc o).2 = some o := by
  simp [Heap.get, Heap.alloc, List.get?_concat_length]

theorem Heap.get_alloc_of_get (h : Heap) (o o' : JObj) (a : Nat)
    (hg : h.get a = some o) : (h.alloc o').1.get a = some o := by
  unfold Heap.get Heap.alloc at *
  have ha : a < h.mem.length := by
    rcases Nat.lt_or_ge a h.mem.length with h1 | h2
    · exact h1
    · rw [List.get?_eq_none.mpr h2] at hg
      cases hg
  rw [List.get?_append ha]
  exact hg

theorem lookupField_setField_self (fs : List (String × JVal)) (k : String) (v : JVal) :
    lookupField (setField fs k v) k = some v := by
  induction fs with
  | nil => simp [setField, lookupField]
  | cons kv rest ih =>
    obtain ⟨k0, v0⟩ := kv
    by_cases hk : k0 = k
    · simp [setField, hk, lookupField]
    · simp [setField, hk, lookupField, ih]

theorem lookupField_setField_ne (fs : List (String × JVal)) (k k' : String) (v : JVal)
    (hne : k' ≠ k) : lookupField (setField fs k v) k' = lookupField fs k' := by
  induction fs with
  | nil => simp [setField, lookupField, Ne.symm hne]
  | cons kv rest ih =>
    obtain ⟨k0, v0⟩ := kv
    by_cases hk : k0 = k
    · simp [setField, hk, lookupField, Ne.symm hne]
    · simp [setField, hk, lookupField, ih]

theorem lookupField_eq_none_of_not_mem (fs : List (String × JVal)) (k : String)
    (hk : k ∉ fs.map Prod.fst) : lookupField fs k = none := by
  induction fs with
  | nil => rfl
  | cons kv rest ih =>
    obtain ⟨k0, v0⟩ := kv
    simp only [List.map_cons, List.mem_cons] at hk
    push_neg at hk
    simp [lookupField, Ne.symm hk.1, ih hk.2]

theorem lookupField_spreadFields_of_none : ∀ (extra base : List (String × JVal))
    (k : String), lookupField extra k = none →
    lookupField (spreadFields base extra) k = lookupField base k := by
  intro extra
  induction extra with
  | nil => intro base k _; rfl
  | cons kv rest ih =>
    obtain ⟨k0, v0⟩ := kv
    intro base k hk
    simp only [lookupField] at hk
    by_cases h1 : k0 = k
    · simp [h1] at hk
    · simp only [h1, if_false] at hk
      simp only [spreadFields, List.foldl_cons]
      rw [show rest.foldl (fun acc kv => setField acc kv.1 kv.2) (setField base k0 v0)
            = spreadFields (setField base k0 v0) rest from rfl]
      rw [ih (setField base k0 v0) k hk]
      exact lookupField_setField_ne base k0 k v0 (fun h => h1 h.symm)

theorem lookupField_spreadFields_of_some : ∀ (extra base : List (String × JVal))
    (k : String) (v : JVal), (extra.map Prod.fst).Nodup →
    lookupField extra k = some v →
    lookupField (spreadFields base extra) k = some v := by
  intro extra
  induction extra with
  | nil => intro base k v _ hk; cases hk
  | cons kv rest ih =>
    obtain ⟨k0, v0⟩ := kv
    intro base k v hnd hk
    simp only [List.map_cons, List.nodup_cons] at hnd
    simp only [lookupField] at hk
    simp only [spreadFields, List.foldl_cons]
    rw [show rest.foldl (fun acc kv => setField acc kv.1 kv.2) (setField base k0 v0)
          = spreadFields (setField base k0 v0) rest from rfl]
    by_cases h1 : k0 = k
    · simp only [h1, if_true] at hk
      cases hk
      have hnone : lookupField rest k = none :=
        lookupField_eq_none_of_not_mem rest k (h1 ▸ hnd.1)
      rw [lookupField_spreadFields_of_none rest (setField base k0 v0) k hnone,
        h1, lookupField_setField_self]
    · simp only [h1, if_false] at hk
      exact ih (setField base k0 v0) k v hnd.2 hk

theorem groupsReducer_default (h : Heap) (s : JVal) (a : JAction)
    (hne : a.type ≠ FETCH_GROUPS_OK) : groupsReducer h s a = (h, s) := by
  unfold groupsReducer
  rw [if_neg hne]

theorem newsFeedReducer_default (h : Heap) (s : JVal) (a : JAction)
    (hne : a.type ≠ FETCH_NEWSFEED_OK) : newsFeedReducer h s a = (h, s) := by
  unfold newsFeedReducer
  rw [if_neg hne]

theorem recentSourcesReducer_default (h : Heap) (s : JVal) (a : JAction)
    (hne : a.type ≠ FETCH_RECENT_SOURCES_OK) : recentSourcesReducer h s a = (h, s) := by
  unfold recentSourcesReducer
  rw [if_neg hne]

theorem sourceReducer_default (h : Heap) (s : JVal) (a : JAction)
    (h1 : a.type ≠ FETCH_LOADED_SOURCE_OK) (h2 : a.type ≠ FETCH_LOADED_SOURCE_FAIL) :
    sourceReducer h s a = (h, s) := by
  unfold sourceReducer
  rw [if_neg h1, if_neg h2]

theorem getField_of_get (h : Heap) (a : Nat) (fs : List (String × JVal)) (k : String)
    (v : JVal) (hg : h.get a = some (.obj fs)) (hl : lookupField fs k = some v) :
    getField h (.ref a) k = v := by
  simp [getField, hg, hl]

theorem objFieldsOf_of_get (h : Heap) (a : Nat) (fs : List (String × JVal))
    (hg : h.get a = some (.obj fs)) : objFieldsOf h (.ref a) = fs := by
  simp [objFieldsOf, hg]

/-! ## Claim theorems -/

/-- C1: for each registered reducer (groups, newsFeed, recentSources,
source), applying it to any state and an action whose type is not one of
that reducer's handled cases returns the state unchanged — the very same
value AND the very same heap, i.e. the same reference with nothing
allocated or modified. -/
theorem c1_unknown_action_returns_same_reference (h : Heap) (s : JVal) (a : JAction) :
    (a.type ≠ FETCH_GROUPS_OK → groupsReducer h s a = (h, s)) ∧
    (a.type ≠ FETCH_NEWSFEED_OK → newsFeedReducer h s a = (h, s)) ∧
    (a.type ≠ FETCH_RECENT_SOURCES_OK → recentSourcesReducer h s a = (h, s)) ∧
    (a.type ≠ FETCH_LOADED_SOURCE_OK → a.type ≠ FETCH_LOADED_SOURCE_FAIL →
      sourceReducer h s a = (h, s)) :=
  ⟨groupsReducer_default h s a, newsFeedReducer_default h s a,
   recentSourcesReducer_default h s a, sourceReducer_default h s a⟩

/-- Witness for C1 at the concrete action `{type: "__UNKNOWN__"}`. -/
theorem c1_unknown_action_returns_same_reference_witness :
    groupsReducer ⟨[]⟩ .null ⟨"__UNKNOWN__", .undefined⟩ = (⟨[]⟩, .null) ∧
    newsFeedReducer ⟨[]⟩ .null ⟨"__UNKNOWN__", .undefined⟩ = (⟨[]⟩, .null) ∧
    recentSourcesReducer ⟨[]⟩ .null ⟨"__UNKNOWN__", .undefined⟩ = (⟨[]⟩, .null) ∧
    sourceReducer ⟨[]⟩ .null ⟨"__UNKNOWN__", .undefined⟩ = (⟨[]⟩, .null) := by
  have T := c1_unknown_action_returns_same_reference ⟨[]⟩ .null ⟨"__UNKNOWN__", .undefined⟩
  exact ⟨T.1 (by decide), T.2.1 (by decide), T.2.2.1 (by decide),
    T.2.2.2 (by decide) (by decide)⟩

/-- C6: no reducer mutates its input: for every reducer, state and action,
the output heap is the input heap with (at most) freshly allocated objects
appended — every object existing before the call is unchanged after it, so
the prior state deep-reads to exactly its pre-call value. -/
theorem c6_reducers_never_mutate (h : Heap) (s : JVal) (a : JAction) :
    (∃ ext, (groupsReducer h s a).1.mem = h.mem ++ ext) ∧
    (∃ ext, (newsFeedReducer h s a).1.mem = h.mem ++ ext) ∧
    (∃ ext, (recentSourcesReducer h s a).1.mem = h.mem ++ ext) ∧
    (∃ ext, (sourceReducer h s a).1.mem = h.mem ++ ext) := by
  refine ⟨?_, ?_, ?_, ?_⟩
  · unfold groupsReducer
    split
    · exact ⟨_, rfl⟩
    · exact ⟨[], by simp⟩
  · unfold newsFeedReducer
    split
    · exact ⟨_, rfl⟩
    · exact ⟨[], by simp⟩
  · unfold recentSourcesReducer
    split
    · exact ⟨_, rfl⟩
    · exact ⟨[], by simp⟩
  · unfold sourceReducer
    split
    · exact ⟨_, rfl⟩
    · split
      · exact ⟨_, rfl⟩
      · exact ⟨[], by simp⟩

/-- C7: the hydrate thunk is a plain synchronous pass over twelve
`dispatch` calls — one for each of config, system info, DB info, profile,
groups, news feed, top sources, instruments, instrument observation
parameters, observing runs, telescopes and taxonomies — with no fetch
awaited, sequenced after another, or aggregated: for an arbitrary
observer `dispatch` the thunk is exactly the fold of the twelve
independent calls, and the call log is exactly `hydrateFetches`. -/
theorem c7_hydrate_fires_twelve_fetches :
    (∀ (σ : Type) (dispatch : HydrateFetch → σ → σ) (s0 : σ),
      hydrateThunk dispatch s0 = hydrateFetches.foldl (fun st f => dispatch f st) s0) ∧
    hydrateFetches.length = 12 ∧
    hydrateThunk (fun f l => l ++ [f]) ([] : List HydrateFetch) = hydrateFetches := by
  refine ⟨fun σ dispatch s0 => rfl, rfl, rfl⟩

/-- C8 (spec-modelled, store code not in the snapshot): registering the
same key twice with the same reducer is idempotent — the registration
table after the second `injectReducer` call is exactly the table after the
first, so the store behaves identically to a single registration; the
call is total (never throws) and the last registration wins. -/
theorem c8_injectReducer_reregistration_idempotent
    (table : List (String × ReducerFn)) (key : String) (r : ReducerFn) :
    injectReducer (injectReducer table key r) key r = injectReducer table key r ∧
    lookupReducer (injectReducer table key r) key = some r := by
  induction table with
  | nil => simp [injectReducer, lookupReducer]
  | cons kv rest ih =>
    obtain ⟨k0, r0⟩ := kv
    by_cases hk : k0 = key
    · simp [injectReducer, hk, lookupReducer]
    · simp [injectReducer, hk, lookupReducer, ih.1, ih.2]

/-- Concrete heap for the ADD_GROUP_OK scenario: addresses 0,1,2 hold the
empty arrays of the groups slice `{user: [], userAccessible: [], all: []}`
at address 3, and address 4 holds the new group `{id: 7, name: "Test
Group"}`. -/
def c5Heap : Heap :=
  ⟨[.arr [], .arr [], .arr [],
    .obj [("user", .ref 0), ("userAccessible", .ref 1), ("all", .ref 2)],
    .obj [("id", .num 7), ("name", .str "Test Group")]]⟩

/-- Counterexample to C5: dispatching `ADD_GROUP_OK` with `{id: 7, name:
"Test Group"}` against `{user: [], userAccessible: [], all: []}` returns
the state unchanged — the groups reducer has no `ADD_GROUP_OK` case, so
the new group is not appended to `all` or any other sub-list: all three
sub-lists are still the empty array. -/
theorem c5_add_group_ok_counterexample :
    groupsReducer c5Heap (.ref 3) ⟨ADD_GROUP_OK, .ref 4⟩ = (c5Heap, .ref 3) ∧
    deep c5Heap 2 (.ref 3) =
      some (.obj [("user", .arr []), ("userAccessible", .arr []), ("all", .arr [])]) := by
  constructor
  · exact groupsReducer_default _ _ _ (by decide)
  · rfl

/-- C5 as amended: the groups reducer does not handle `ADD_GROUP_OK`; it
returns the prior state unchanged (same reference, heap untouched), so
`user` and `userAccessible` — and `all` — are untouched and the new group
appears in no sub-list. -/
theorem c5_add_group_ok_returns_state_unchanged (h : Heap) (s : JVal) (d : JVal) :
    groupsReducer h s ⟨ADD_GROUP_OK, d⟩ = (h, s) := by
  apply groupsReducer_default
  show ADD_GROUP_OK ≠ FETCH_GROUPS_OK
  decide

/-- C2: one application of the groups reducer to a state whose keys are
exactly `user`, `userAccessible`, `all` (in particular the initial state)
and the action `FETCH_GROUPS_OK` with data `{user_groups: [],
user_accessible_groups: [], all_groups: null}` yields exactly the slice
`{user: [], userAccessible: [], all: null}` (deep-read of the single
synchronous result — no intermediate state exists). -/
theorem c2_fetch_groups_ok_yields_exact_slice (h : Heap) (sa da ua aa : Nat)
    (v1 v2 v3 : JVal)
    (hs : h.get sa = some (.obj [("user", v1), ("userAccessible", v2), ("all", v3)]))
    (hd : h.get da = some (.obj [("user_groups", .ref ua),
      ("user_accessible_groups", .ref aa), ("all_groups", .null)]))
    (hu : h.get ua = some (.arr []))
    (ha : h.get aa = some (.arr [])) :
    deep (groupsReducer h (.ref sa) ⟨FETCH_GROUPS_OK, .ref da⟩).1 2
        (groupsReducer h (.ref sa) ⟨FETCH_GROUPS_OK, .ref da⟩).2 =
      some (.obj [("user", .arr []), ("userAccessible", .arr []), ("all", .null)]) := by
  have g1 : getField h (.ref da) "user_groups" = .ref ua :=
    getField_of_get h da _ _ _ hd rfl
  have g2 : getField h (.ref da) "user_accessible_groups" = .ref aa :=
    getField_of_get h da _ _ _ hd rfl
  have g3 : getField h (.ref da) "all_groups" = .null :=
    getField_of_get h da _ _ _ hd rfl
  have hobj := objFieldsOf_of_get h sa _ hs
  have e1 : groupsReducer h (.ref sa) ⟨FETCH_GROUPS_OK, .ref da⟩ =
      ((h.alloc (.obj [("user", .ref ua), ("userAccessible", .ref aa),
        ("all", .null)])).1,
       .ref (h.alloc (.obj [("user", .ref ua), ("userAccessible", .ref aa),
        ("all", .null)])).2) := by
    simp [groupsReducer, g1, g2, g3, hobj, setField]
  rw [e1]
  have hn := Heap.get_alloc_self h
    (.obj [("user", .ref ua), ("userAccessible", .ref aa), ("all", .null)])
  have hu2 := Heap.get_alloc_of_get h (.arr [])
    (.obj [("user", .ref ua), ("userAccessible", .ref aa), ("all", .null)]) ua hu
  have ha2 := Heap.get_alloc_of_get h (.arr [])
    (.obj [("user", .ref ua), ("userAccessible", .ref aa), ("all", .null)]) aa ha
  simp [deep, hn, hu2, ha2, List.mapM.loop]

/-- Concrete heap for the C2 witness: the initial groups slice at address
4 and the `FETCH_GROUPS_OK` payload at address 5. -/
def c2Heap : Heap :=
  ⟨[.arr [], .arr [], .arr [], .arr [],
    .obj [("user", .ref 2), ("userAccessible", .ref 3), ("all", .null)],
    .obj [("user_groups", .ref 0), ("user_accessible_groups", .ref 1),
      ("all_groups", .null)]]⟩

/-- Witness for C2 at the concrete initial groups state. -/
theorem c2_fetch_groups_ok_yields_exact_slice_witness :
    c2Heap.get 4 = some (.obj [("user", .ref 2), ("userAccessible", .ref 3),
      ("all", .null)]) ∧
    c2Heap.get 5 = some (.obj [("user_groups", .ref 0),
      ("user_accessible_groups", .ref 1), ("all_groups", .null)]) ∧
    c2Heap.get 0 = some (.arr []) ∧
    c2Heap.get 1 = some (.arr []) ∧
    deep (groupsReducer c2Heap (.ref 4) ⟨FETCH_GROUPS_OK, .ref 5⟩).1 2
        (groupsReducer c2Heap (.ref 4) ⟨FETCH_GROUPS_OK, .ref 5⟩).2 =
      some (.obj [("user", .arr []), ("userAccessible", .arr []), ("all", .null)]) :=
  ⟨rfl, rfl, rfl, rfl,
   c2_fetch_groups_ok_yields_exact_slice c2Heap 4 5 0 1 (.ref 2) (.ref 3) .null
     rfl rfl rfl rfl⟩

/-- C3: the source message-handler subscriber, given a store whose
`source` slice has `id === "42"`, dispatches nothing on
`REFRESH_SOURCE` with `{source_id: "43"}` and dispatches exactly
`[fetchSource("42")]` on `REFRESH_SOURCE` with `{source_id: "42"}`. -/
theorem c3_source_refresh_gating (h : Heap) (st p43 p42 : JVal)
    (htr : jsTruthy (getField h st "source") = true)
    (hid : getField h (getField h st "source") "id" = .str "42")
    (h43 : getField h p43 "source_id" = .str "43")
    (h42 : getField h p42 "source_id" = .str "42") :
    sourceMessageHandler h st REFRESH_SOURCE p43 = [] ∧
    sourceMessageHandler h st REFRESH_SOURCE p42 = [.fetchSource (.str "42")] := by
  constructor <;>
    simp [sourceMessageHandler, REFRESH_SOURCE, htr, hid, h43, h42, jsStrictEq]

/-- Concrete heap for the C3 witness: the loaded source `{id: "42"}` at
address 0, the store state at address 1, and the two payloads at
addresses 2 and 3. -/
def c3Heap : Heap :=
  ⟨[.obj [("id", .str "42")],
    .obj [("source", .ref 0)],
    .obj [("source_id", .str "43")],
    .obj [("source_id", .str "42")]]⟩

/-- Witness for C3 at a concrete store state and payloads. -/
theorem c3_source_refresh_gating_witness :
    jsTruthy (getField c3Heap (.ref 1) "source") = true ∧
    getField c3Heap (getField c3Heap (.ref 1) "source") "id" = .str "42" ∧
    getField c3Heap (.ref 2) "source_id" = .str "43" ∧
    getField c3Heap (.ref 3) "source_id" = .str "42" ∧
    sourceMessageHandler c3Heap (.ref 1) REFRESH_SOURCE (.ref 2) = [] ∧
    sourceMessageHandler c3Heap (.ref 1) REFRESH_SOURCE (.ref 3) =
      [.fetchSource (.str "42")] := by
  have T := c3_source_refresh_gating c3Heap (.ref 1) (.ref 2) (.ref 3)
    rfl rfl rfl rfl
  exact ⟨rfl, rfl, rfl, rfl, T.1, T.2⟩

/-- C4 (spec-modelled, `API.js` not in the snapshot): every HTTP wrapper
verb call whose request fails — network error, non-success status, or
malformed response — resolves (the model is a total function: it never
rejects or throws) with `{status: "error", message}` where the message is
a non-empty string, and dispatches exactly the generic failure
notification carrying that message. -/
theorem c4_failure_resolves_with_error_and_notifies (verb : HTTPVerb)
    (path successType : String) (o : RequestOutcome) (hfail : o.isFail = true) :
    (apiCall verb path successType o).1.status = "error" ∧
    (apiCall verb path successType o).1.message ≠ "" ∧
    (apiCall verb path successType o).2 =
      [.failNotification (apiCall verb path successType o).1.message] := by
  cases o with
  | ok d => cases hfail
  | networkError m =>
    refine ⟨rfl, ?_, rfl⟩
    by_cases hm : m = "" <;> simp [apiCall, apiFailureMessage, hm]
  | httpStatus code body =>
    refine ⟨rfl, ?_, rfl⟩
    by_cases hb : body = "" <;> simp [apiCall, apiFailureMessage, hb]
  | malformed raw =>
    exact ⟨rfl, by simp [apiCall, apiFailureMessage], rfl⟩

/-- Witness for C4 at a concrete failing GET. -/
theorem c4_failure_resolves_with_error_and_notifies_witness :
    (RequestOutcome.networkError "").isFail = true ∧
    (apiCall .get "/api/groups" FETCH_GROUPS (.networkError "")).1.status = "error" ∧
    (apiCall .get "/api/groups" FETCH_GROUPS (.networkError "")).1.message ≠ "" ∧
    (apiCall .get "/api/groups" FETCH_GROUPS (.networkError "")).2 =
      [.failNotification
        (apiCall .get "/api/groups" FETCH_GROUPS (.networkError "")).1.message] := by
  have T := c4_failure_resolves_with_error_and_notifies .get "/api/groups"
    FETCH_GROUPS (.networkError "") rfl
  exact ⟨rfl, T.1, T.2.1, T.2.2⟩

/-- C9: for every prior source-slice state, `FETCH_LOADED_SOURCE_FAIL`
yields a new state object whose `loadError` is `true` while every other
field keeps its previous value, and the heap is only extended by the new
state object — all previously loaded data is unchanged. -/
theorem c9_fail_sets_loadError_frame (h : Heap) (sa : Nat)
    (fs : List (String × JVal)) (d : JVal)
    (hs : h.get sa = some (.obj fs)) :
    ∃ nfs,
      sourceReducer h (.ref sa) ⟨FETCH_LOADED_SOURCE_FAIL, d⟩ =
        (⟨h.mem ++ [.obj nfs]⟩, .ref h.mem.length) ∧
      lookupField nfs "loadError" = some (.bool true) ∧
      (∀ k, k ≠ "loadError" → lookupField nfs k = lookupField fs k) := by
  refine ⟨setField fs "loadError" (.bool true), ?_, ?_, ?_⟩
  · have hobj := objFieldsOf_of_get h sa _ hs
    simp [sourceReducer, hobj, Heap.alloc,
      FETCH_LOADED_SOURCE_OK, FETCH_LOADED_SOURCE_FAIL]
  · exact lookupField_setField_self _ _ _
  · intro k hk
    exact lookupField_setField_ne fs "loadError" k (.bool true) hk

/-- Concrete heap for the C9 witness: a loaded source slice
`{id: "42", loadError: false}` at address 0. -/
def c9Heap : Heap :=
  ⟨[.obj [("id", .str "42"), ("loadError", .bool false)]]⟩

/-- Witness for C9 at a concrete prior slice. -/
theorem c9_fail_sets_loadError_frame_witness :
    c9Heap.get 0 = some (.obj [("id", .str "42"), ("loadError", .bool false)]) ∧
    ∃ nfs,
      sourceReducer c9Heap (.ref 0) ⟨FETCH_LOADED_SOURCE_FAIL, .undefined⟩ =
        (⟨c9Heap.mem ++ [.obj nfs]⟩, .ref c9Heap.mem.length) ∧
      lookupField nfs "loadError" = some (.bool true) ∧
      (∀ k, k ≠ "loadError" → lookupField nfs k =
        lookupField [("id", .str "42"), ("loadError", .bool false)] k) :=
  ⟨rfl, c9_fail_sets_loadError_frame c9Heap 0
    [("id", .str "42"), ("loadError", .bool false)] .undefined rfl⟩

/-- Concrete heap for the C10 counterexample: prior source slice
`{source: null, loadError: false}` at address 0, fetched payload
`action.data.sources = {loadError: true}` at address 1, action data at
address 2. -/
def c10Heap : Heap :=
  ⟨[.obj [("source", .null), ("loadError", .bool false)],
    .obj [("loadError", .bool true)],
    .obj [("sources", .ref 1)]]⟩

/-- Counterexample to C10 as stated: `loadError` is a key of
`action.data.sources` with newly fetched value `true`, yet the resulting
state's `loadError` is `false` — the explicit `loadError: false` written
after the spread wins, so not every key occurring in
`action.data.sources` takes the newly fetched value. -/
theorem c10_merge_counterexample :
    getField c10Heap (.ref 2) "sources" = .ref 1 ∧
    getField c10Heap (.ref 1) "loadError" = .bool true ∧
    (sourceReducer c10Heap (.ref 0) ⟨FETCH_LOADED_SOURCE_OK, .ref 2⟩).2 = .ref 3 ∧
    getField (sourceReducer c10Heap (.ref 0) ⟨FETCH_LOADED_SOURCE_OK, .ref 2⟩).1
      (.ref 3) "loadError" = .bool false :=
  ⟨rfl, rfl, rfl, rfl⟩

/-- C10 as amended: `FETCH_LOADED_SOURCE_OK` merges `action.data.sources`
into the prior state rather than replacing it — every key of the result
occurring in `action.data.sources` other than `loadError` takes the newly
fetched value, every key of the prior state absent from
`action.data.sources` (other than `loadError`) keeps its old value, and
`loadError` is set to `false` regardless of any value for it in the
fetched payload. -/
theorem c10_fetch_loaded_source_ok_merges (h : Heap) (sa da so : Nat)
    (sfs ssrc : List (String × JVal))
    (hs : h.get sa = some (.obj sfs))
    (hd : getField h (.ref da) "sources" = .ref so)
    (hsrc : h.get so = some (.obj ssrc))
    (hnd : (ssrc.map Prod.fst).Nodup) :
    ∃ nfs,
      sourceReducer h (.ref sa) ⟨FETCH_LOADED_SOURCE_OK, .ref da⟩ =
        (⟨h.mem ++ [.obj nfs]⟩, .ref h.mem.length) ∧
      lookupField nfs "loadError" = some (.bool false) ∧
      (∀ k v, k ≠ "loadError" → lookupField ssrc k = some v →
        lookupField nfs k = some v) ∧
      (∀ k, k ≠ "loadError" → lookupField ssrc k = none →
        lookupField nfs k = lookupField sfs k) := by
  refine ⟨setField (spreadFields sfs ssrc) "loadError" (.bool false), ?_, ?_, ?_, ?_⟩
  · have hobj := objFieldsOf_of_get h sa _ hs
    have hobj2 := objFieldsOf_of_get h so _ hsrc
    simp [sourceReducer, hd, hobj, hobj2, Heap.alloc, FETCH_LOADED_SOURCE_OK]
  · exact lookupField_setField_self _ _ _
  · intro k v hk hv
    rw [lookupField_setField_ne (spreadFields sfs ssrc) "loadError" k (.bool false) hk]
    exact lookupField_spreadFields_of_some ssrc sfs k v hnd hv
  · intro k hk hv
    rw [lookupField_setField_ne (spreadFields sfs ssrc) "loadError" k (.bool false) hk]
    exact lookupField_spreadFields_of_none ssrc sfs k hv

/-- Concrete heap for the C10 witness: prior slice
`{source: null, loadError: false}` at address 0, fetched source
`{id: "x", ra: 5}` at address 1, action data at address 2. -/
def c10WHeap : Heap :=
  ⟨[.obj [("source", .null), ("loadError", .bool false)],
    .obj [("id", .str "x"), ("ra", .num 5)],
    .obj [("sources", .ref 1)]]⟩

/-- Witness for the amended C10 at a concrete fetched payload. -/
theorem c10_fetch_loaded_source_ok_merges_witness :
    c10WHeap.get 0 = some (.obj [("source", .null), ("loadError", .bool false)]) ∧
    getField c10WHeap (.ref 2) "sources" = .ref 1 ∧
    c10WHeap.get 1 = some (.obj [("id", .str "x"), ("ra", .num 5)]) ∧
    (([("id", JVal.str "x"), ("ra", JVal.num 5)].map Prod.fst).Nodup) ∧
    ∃ nfs,
      sourceReducer c10WHeap (.ref 0) ⟨FETCH_LOADED_SOURCE_OK, .ref 2⟩ =
        (⟨c10WHeap.mem ++ [.obj nfs]⟩, .ref c10WHeap.mem.length) ∧
      lookupField nfs "loadError" = some (.bool false) ∧
      (∀ k v, k ≠ "loadError" →
        lookupField [("id", JVal.str "x"), ("ra", JVal.num 5)] k = some v →
        lookupField nfs k = some v) ∧
      (∀ k, k ≠ "loadError" →
        lookupField [("id", JVal.str "x"), ("ra", JVal.num 5)] k = none →
        lookupField nfs k =
          lookupField [("source", JVal.null), ("loadError", JVal.bool false)] k) :=
  ⟨rfl, rfl, rfl, by decide,
   c10_fetch_loaded_source_ok_merges c10WHeap 0 2 1
     [("source", .null), ("loadError", .bool false)]
     [("id", .str "x"), ("ra", .num 5)] rfl rfl rfl (by decide)⟩

